import Mathlib

/-!
Verification of the stock-adjustment core of the DB_CAFETERIA service
(`src/app.py`), shallowly embedded in Lean 4.

Quantities are modelled as exact rationals (`ℚ`), matching the source's use
of `decimal.Decimal`; the Oracle store is modelled as a pure `DB` record and
each endpoint as a function from the committed store (plus request data) to
a response together with the store after the request, where an aborted
transaction returns the original store (connection release rolls back any
uncommitted work).  `datetime.now()` is modelled as an explicit `now : Nat`
parameter.
-/

set_option maxRecDepth 100000

instance {ε α : Type} [DecidableEq ε] [DecidableEq α] :
    DecidableEq (Except ε α) := fun x y =>
  match x, y with
  | .ok a, .ok b =>
    if h : a = b then isTrue (by rw [h])
    else isFalse (fun he => by cases he; exact h rfl)
  | .error a, .error b =>
    if h : a = b then isTrue (by rw [h])
    else isFalse (fun he => by cases he; exact h rfl)
  | .ok _, .error _ => isFalse (fun he => by cases he)
  | .error _, .ok _ => isFalse (fun he => by cases he)

/-- Rounding used by the engine: `Decimal.quantize` at `0.001` with
`ROUND_HALF_UP`, i.e. round to 3 fractional digits, ties away from zero. -/
def quantize3 (q : ℚ) : ℚ :=
  if 0 ≤ q then ((⌊q * 1000 + 1 / 2⌋ : ℤ) : ℚ) / 1000
  else -(((⌊-q * 1000 + 1 / 2⌋ : ℤ) : ℚ) / 1000)

/-- `q` has at most 3 fractional digits (scale ≤ 3). -/
def hasScale3 (q : ℚ) : Bool := (q * 1000).den == 1

/-- Row of `SGIC_INGREDIENTES`. -/
structure Ingrediente where
  id_ingrediente : Nat
  nombre : String
  descripcion : Option String
  unidad_medida : String
  stock_actual : ℚ
  stock_minimo : ℚ
  fecha_actualizacion : Nat
  deriving Repr, DecidableEq

/-- Row of `SGIC_MOVIMIENTOS_INVENTARIO` (identity column omitted; the log
is append-only so list position plays that role). -/
structure Movimiento where
  id_ingrediente_fk : Nat
  id_venta_fk : Option Nat
  tipo_movimiento : String
  cantidad : ℚ
  fecha_movimiento : Nat
  observacion : String
  deriving Repr, DecidableEq

/-- Row of `SGIC_PRODUCTOS` (fields the core reads). -/
structure Producto where
  id_producto : Nat
  nombre : String
  precio_venta : ℚ
  deriving Repr, DecidableEq

/-- Row of `SGIC_PRODUCTO_INGREDIENTES`. -/
structure RecetaLinea where
  id_producto_fk : Nat
  id_ingrediente_fk : Nat
  cantidad_necesaria : ℚ
  unidad_medida_receta : String
  deriving Repr, DecidableEq

/-- Row of `SGIC_VENTAS`. -/
structure Venta where
  id_venta : Nat
  id_producto_fk : Nat
  cantidad_vendida : Int
  precio_unitario_venta : ℚ
  monto_total_venta : ℚ
  fecha_venta : Nat
  observacion : String
  deriving Repr, DecidableEq

/-- The committed database state. `next_venta_id` models the identity
column of `SGIC_VENTAS` (`RETURNING id_venta`). -/
structure DB where
  ingredientes : List Ingrediente
  productos : List Producto
  receta : List RecetaLinea
  ventas : List Venta
  movimientos : List Movimiento
  next_venta_id : Nat
  deriving Repr, DecidableEq

/-- Errors raised as `ValueError` by `_actualizar_stock_ingrediente_db`;
the second carries exactly the data interpolated into the message
(`Stock insuficiente para <nombre> (ID <id>). Requiere <abs delta>,
disponible <stock>.`). -/
inductive AjusteError where
  | ingredienteNotFound (id_ingrediente : Nat)
  | stockInsuficiente (id_ingrediente : Nat) (nombre : String)
      (requerido : ℚ) (disponible : ℚ)
  deriving Repr, DecidableEq

/-- `SELECT ... WHERE id_ingrediente = :id` on the ingredient table. -/
def findIngrediente (db : DB) (id_ingrediente : Nat) : Option Ingrediente :=
  db.ingredientes.find? (fun j => j.id_ingrediente == id_ingrediente)

/-- Current stock of an ingredient, if the row exists. -/
def stockOf (db : DB) (id_ingrediente : Nat) : Option ℚ :=
  (findIngrediente db id_ingrediente).map (·.stock_actual)

/-- `src/app.py` lines 620–645, `_actualizar_stock_ingrediente_db`:
lock and read the ingredient row (`ValueError` if absent), compute
`nuevo_stock = quantize3(stock_actual + cantidad_ajuste)`, fail with the
insufficient-stock `ValueError` when it is negative, otherwise write the
new stock and append one movement whose `cantidad` is the absolute
adjustment.  The two writes belong to the caller transaction, hence the
`Except`: an error produces no new state. -/
def _actualizar_stock_ingrediente_db (db : DB) (id_ingrediente : Nat)
    (cantidad_ajuste : ℚ) (tipo_movimiento : String) (observacion : String)
    (now : Nat) (id_venta : Option Nat) : Except AjusteError DB :=
  match findIngrediente db id_ingrediente with
  | none => .error (.ingredienteNotFound id_ingrediente)
  | some ing =>
    let nuevo_stock := quantize3 (ing.stock_actual + cantidad_ajuste)
    if nuevo_stock < 0 then
      .error (.stockInsuficiente id_ingrediente ing.nombre
        |cantidad_ajuste| ing.stock_actual)
    else
      .ok { db with
        ingredientes := db.ingredientes.map (fun j =>
          if j.id_ingrediente == id_ingrediente then
            { j with stock_actual := nuevo_stock }
          else j),
        movimientos := db.movimientos ++
          [⟨id_ingrediente, id_venta, tipo_movimiento, |cantidad_ajuste|,
            now, observacion⟩] }

/-- Outcome of `POST /api/inventario/entrada`: HTTP status, the committed
store after the request (the original store when nothing was committed),
and the engine error surfaced by the `except ValueError` branch, if any. -/
structure EntradaResult where
  status : Nat
  db : DB
  error : Option AjusteError
  deriving Repr, DecidableEq

/-- `src/app.py` lines 647–676, `registrar_entrada_inventario`: reject a
non-positive `cantidad` with 400; normalise the movement kind (default
`"ENTRADA_COMPRA"`, stripped and upper-cased); run the engine and commit,
or answer 400 with the `ValueError` detail (there is no dedicated 404
branch, and no decimal-precision check on `cantidad`). -/
def registrar_entrada_inventario (db : DB) (id_ingrediente : Nat)
    (cantidad : ℚ) (tipo_movimiento' : Option String)
    (observacion' : Option String) (now : Nat) : EntradaResult :=
  if cantidad ≤ 0 then ⟨400, db, none⟩
  else
    let tipo_movimiento := (tipo_movimiento'.getD "ENTRADA_COMPRA").trim.toUpper
    let observacion := observacion'.getD
      ("Entrada de " ++ toString cantidad ++ " unidades.")
    match _actualizar_stock_ingrediente_db db id_ingrediente cantidad
        tipo_movimiento observacion now none with
    | .ok db2 => ⟨200, db2, none⟩
    | .error e => ⟨400, db, some e⟩

/-- A `PUT /api/ingredientes/<id>` request body; `none` models an absent
JSON key (the numeric fields are also absent when the key maps to `null`,
matching the source `is not None` guards). -/
structure IngredienteUpdate where
  nombre' : Option String
  descripcion' : Option String
  unidad_medida' : Option String
  stock_actual' : Option ℚ
  stock_minimo' : Option ℚ
  deriving Repr, DecidableEq

/-- Validation of one stock field in `validate_ingrediente_data`
(update mode): negative, finer than 3 decimals, or above the column
maximum is an error. -/
def validStockField (q : ℚ) : Bool :=
  decide (0 ≤ q) && hasScale3 q && decide (q ≤ 9999999999/1000)

/-- `src/app.py` lines 186–221, `validate_ingrediente_data` with
`is_update=True`, restricted to the typed payload above: string lengths,
non-empty name/unit when present, and the numeric checks of
`validStockField`. Returns the error messages in order. -/
def validate_ingrediente_data_update (p : IngredienteUpdate) : List String :=
  (match p.nombre' with
    | none => []
    | some n =>
      if n.trim = "" then ["El nombre del ingrediente es requerido."]
      else if n.trim.length > 100 then ["El nombre no debe exceder 100 caracteres."]
      else []) ++
  (match p.unidad_medida' with
    | none => []
    | some u =>
      if u.trim = "" then ["La unidad de medida es requerida."]
      else if u.trim.length > 50 then ["La unidad no debe exceder 50 caracteres."]
      else []) ++
  (match p.descripcion' with
    | none => []
    | some d =>
      if d.length > 255 then ["La descripcion no debe exceder 255 caracteres."]
      else []) ++
  (match p.stock_actual' with
    | none => []
    | some q => if validStockField q then [] else ["Stock Actual invalido."]) ++
  (match p.stock_minimo' with
    | none => []
    | some q => if validStockField q then [] else ["Stock Minimo invalido."])

/-- Outcome of `PUT /api/ingredientes/<id>`: HTTP status and the committed
store after the request. -/
structure UpdateResult where
  status : Nat
  db : DB
  deriving Repr, DecidableEq

/-- Field-wise application of the `UPDATE SGIC_INGREDIENTES SET ...` built
by `update_ingrediente`: present fields are assigned (strings stripped,
empty description stored as NULL, stock fields assigned directly), and
`fecha_actualizacion = CURRENT_TIMESTAMP`. -/
def applyIngredienteUpdate (p : IngredienteUpdate) (now : Nat)
    (j : Ingrediente) : Ingrediente :=
  { j with
    nombre := (p.nombre'.map (·.trim)).getD j.nombre,
    descripcion := match p.descripcion' with
      | none => j.descripcion
      | some d => if d.trim = "" then none else some d.trim,
    unidad_medida := (p.unidad_medida'.map (·.trim)).getD j.unidad_medida,
    stock_actual := p.stock_actual'.getD j.stock_actual,
    stock_minimo := p.stock_minimo'.getD j.stock_minimo,
    fecha_actualizacion := now }

/-- True when the payload contributes no `update_fields` entry. -/
def IngredienteUpdate.isEmpty (p : IngredienteUpdate) : Bool :=
  p.nombre'.isNone && p.descripcion'.isNone && p.unidad_medida'.isNone &&
    p.stock_actual'.isNone && p.stock_minimo'.isNone

/-- `src/app.py` lines 347–395, `update_ingrediente`: validate, 404 when
the row is absent, 200 without change when no field is present, otherwise
a direct `UPDATE` of the named columns — `stock_actual` included — with a
single commit.  No movement row is ever written on this path. -/
def update_ingrediente (db : DB) (ingrediente_id : Nat)
    (p : IngredienteUpdate) (now : Nat) : UpdateResult :=
  if validate_ingrediente_data_update p ≠ [] then ⟨400, db⟩
  else if (findIngrediente db ingrediente_id).isNone then ⟨404, db⟩
  else if p.isEmpty then ⟨200, db⟩
  else ⟨200, { db with ingredientes := db.ingredientes.map (fun j =>
    if j.id_ingrediente == ingrediente_id then applyIngredienteUpdate p now j
    else j) }⟩

/-- One resolved recipe line as returned by the product read path
(`SELECT pi.id_ingrediente_fk, i.nombre, pi.cantidad_necesaria,
pi.unidad_medida_receta ... ORDER BY i.nombre`). -/
structure RecetaResuelta where
  id_ingrediente : Nat
  nombre_ingrediente : String
  cantidad_necesaria : ℚ
  unidad_medida_receta : String
  deriving Repr, DecidableEq

instance : DecidableRel
    (fun a b : RecetaResuelta => a.nombre_ingrediente ≤ b.nombre_ingrediente) :=
  fun a b => inferInstanceAs (Decidable (a.nombre_ingrediente ≤ b.nombre_ingrediente))

instance : IsTotal RecetaResuelta
    (fun a b => a.nombre_ingrediente ≤ b.nombre_ingrediente) :=
  ⟨fun a b => le_total a.nombre_ingrediente b.nombre_ingrediente⟩

instance : IsTrans RecetaResuelta
    (fun a b => a.nombre_ingrediente ≤ b.nombre_ingrediente) :=
  ⟨fun _ _ _ => le_trans⟩

/-- `src/app.py` lines 470–486, the recipe query of `get_producto_by_id`:
the product recipe rows joined with the ingredient table (an inner join,
hence `filterMap` over the ingredient lookup) and ordered by ingredient
name. -/
def recipe_for (db : DB) (id_producto : Nat) : List RecetaResuelta :=
  List.insertionSort
    (fun a b => a.nombre_ingrediente ≤ b.nombre_ingrediente)
    ((db.receta.filter (fun l => l.id_producto_fk == id_producto)).filterMap
      (fun l => (findIngrediente db l.id_ingrediente_fk).map (fun ing =>
        ⟨l.id_ingrediente_fk, ing.nombre, l.cantidad_necesaria,
          l.unidad_medida_receta⟩)))

/-- `src/app.py` line 718, the recipe query of `registrar_salida_por_venta`:
`SELECT id_ingrediente_fk, cantidad_necesaria FROM
SGIC_PRODUCTO_INGREDIENTES WHERE id_producto_fk = :id_prod` — note, with no
`ORDER BY`: rows arrive in stored table order. -/
def ventaRecetaQuery (db : DB) (id_producto : Nat) : List RecetaLinea :=
  db.receta.filter (fun l => l.id_producto_fk == id_producto)

/-- Errors of the sale transaction, both surfaced as `ValueError` → 400. -/
inductive VentaError where
  | productoNotFound (id_producto : Nat)
  | ajuste (e : AjusteError)
  deriving Repr, DecidableEq

/-- The note the sale loop passes to the engine for every movement. -/
def observVenta (id_venta : Nat) (cantidad_vendida : Int)
    (nombre_producto : String) : String :=
  "Salida por Venta ID: " ++ toString id_venta ++ " (" ++
    toString cantidad_vendida ++ " x " ++ nombre_producto ++ ")"

/-- `src/app.py` lines 724–728, the per-ingredient loop of
`registrar_salida_por_venta`: for each recipe row, in query order, call the
engine with `delta = -(cantidad_necesaria * cantidad_vendida)`, kind
`SALIDA_VENTA` and this sale id; the first failure aborts the loop. -/
def aplicarSalidas (cantidad_vendida : Int) (id_venta : Nat)
    (nombre_producto : String) (now : Nat) :
    DB → List RecetaLinea → Except AjusteError DB
  | db, [] => .ok db
  | db, l :: rest =>
    let cantidad_total_a_descontar := l.cantidad_necesaria * (cantidad_vendida : ℚ)
    match _actualizar_stock_ingrediente_db db l.id_ingrediente_fk
        (-cantidad_total_a_descontar) "SALIDA_VENTA"
        (observVenta id_venta cantidad_vendida nombre_producto) now
        (some id_venta) with
    | .ok db2 => aplicarSalidas cantidad_vendida id_venta nombre_producto now db2 rest
    | .error e => .error e

/-- The Sale row inserted by the transaction (price captured at sale
time). -/
def ventaRow (db : DB) (id_producto : Nat) (cantidad_vendida : Int)
    (observacion_venta' : Option String) (now : Nat)
    (producto : Producto) : Venta :=
  ⟨db.next_venta_id, id_producto, cantidad_vendida, producto.precio_venta,
    producto.precio_venta * (cantidad_vendida : ℚ), now,
    observacion_venta'.getD
      ("Venta de " ++ toString cantidad_vendida ++ " x " ++ producto.nombre)⟩

/-- The store right after the `INSERT INTO SGIC_VENTAS ... RETURNING
id_venta` of the sale transaction (uncommitted at this point). -/
def dbConVenta (db : DB) (id_producto : Nat) (cantidad_vendida : Int)
    (observacion_venta' : Option String) (now : Nat)
    (producto : Producto) : DB :=
  { db with
    ventas := db.ventas ++
      [ventaRow db id_producto cantidad_vendida observacion_venta' now producto],
    next_venta_id := db.next_venta_id + 1 }

/-- `src/app.py` lines 694–729, the transaction body of
`registrar_salida_por_venta`: look up the product (`ValueError` if absent),
insert the Sale row capturing the current price, read the recipe with the
unordered query, run the per-ingredient loop; any error aborts the whole
transaction (the single `connection.commit()` is only reached at the end). -/
def salida_txn (db : DB) (id_producto : Nat) (cantidad_vendida : Int)
    (observacion_venta' : Option String) (now : Nat) :
    Except VentaError (DB × Nat) :=
  match db.productos.find? (fun p => p.id_producto == id_producto) with
  | none => .error (.productoNotFound id_producto)
  | some producto =>
    match aplicarSalidas cantidad_vendida db.next_venta_id producto.nombre now
        (dbConVenta db id_producto cantidad_vendida observacion_venta' now
          producto)
        (ventaRecetaQuery db id_producto) with
    | .ok db2 => .ok (db2, db.next_venta_id)
    | .error e => .error (.ajuste e)

/-- Outcome of `POST /api/inventario/salida_venta_producto`. -/
structure SalidaResult where
  status : Nat
  db : DB
  id_venta : Option Nat
  error : Option VentaError
  deriving Repr, DecidableEq

/-- `src/app.py` lines 678–739, `registrar_salida_por_venta`: reject a
non-positive `cantidad_vendida` with 400 before any storage work; run the
transaction body; on success commit and answer 200 with the sale id, on
`ValueError` answer 400 with the detail while the released connection rolls
the transaction back, leaving the committed store unchanged. -/
def registrar_salida_por_venta (db : DB) (id_producto : Nat)
    (cantidad_vendida : Int) (observacion_venta' : Option String)
    (now : Nat) : SalidaResult :=
  if cantidad_vendida ≤ 0 then ⟨400, db, none, none⟩
  else
    match salida_txn db id_producto cantidad_vendida observacion_venta' now with
    | .ok (db2, new_venta_id) => ⟨200, db2, some new_venta_id, none⟩
    | .error e => ⟨400, db, none, some e⟩

/-- Arguments of one call to the Stock Adjustment Engine. -/
structure Ajuste where
  id_ingrediente : Nat
  delta : ℚ
  tipo_movimiento : String
  observacion : String
  fecha : Nat
  id_venta : Option Nat
  deriving Repr, DecidableEq

/-- One engine call at the transaction-boundary level: a success commits
its writes, a failure rolls back and leaves the store as it was. -/
def applyAjuste (db : DB) (a : Ajuste) : DB :=
  match _actualizar_stock_ingrediente_db db a.id_ingrediente a.delta
      a.tipo_movimiento a.observacion a.fecha a.id_venta with
  | .ok db2 => db2
  | .error _ => db

/-- A sequence of engine calls, each committed or rolled back on its own. -/
def applyAjustes (db : DB) (as : List Ajuste) : DB :=
  as.foldl applyAjuste db

/-- The subsequence of adjustments that commit when the sequence runs. -/
def committed : DB → List Ajuste → List Ajuste
  | _, [] => []
  | db, a :: rest =>
    match _actualizar_stock_ingrediente_db db a.id_ingrediente a.delta
        a.tipo_movimiento a.observacion a.fecha a.id_venta with
    | .ok db2 => a :: committed db2 rest
    | .error _ => committed db rest

/-- The movement row a committed engine call appends. -/
def movOfAjuste (a : Ajuste) : Movimiento :=
  ⟨a.id_ingrediente, a.id_venta, a.tipo_movimiento, |a.delta|, a.fecha,
    a.observacion⟩

/-- Sum of the signed deltas of the adjustments aimed at one ingredient. -/
def sumDeltasFor (id_ingrediente : Nat) (as : List Ajuste) : ℚ :=
  ((as.filter (fun a => a.id_ingrediente == id_ingrediente)).map
    (·.delta)).sum

/-- The movement row the sale loop appends for one recipe line. -/
def movVenta (cantidad_vendida : Int) (id_venta : Nat)
    (nombre_producto : String) (now : Nat) (l : RecetaLinea) : Movimiento :=
  ⟨l.id_ingrediente_fk, some id_venta, "SALIDA_VENTA",
    |(-(l.cantidad_necesaria * (cantidad_vendida : ℚ)))|, now,
    observVenta id_venta cantidad_vendida nombre_producto⟩

/-- Test store for the sale scenarios: milk at 0.150 L, a product whose
recipe needs 0.200 L per unit. -/
def dbLatte : DB :=
  ⟨[⟨3, "Leche", none, "L", 3/20, 0, 0⟩], [⟨1, "Latte", 5⟩],
    [⟨1, 3, 1/5, "L"⟩], [], [], 1⟩

/-- The milk row of `dbLatte`. -/
def ingLeche : Ingrediente := ⟨3, "Leche", none, "L", 3/20, 0, 0⟩

/-- Test store with a single sugar ingredient at stock 10. -/
def dbAzucar : DB :=
  ⟨[⟨1, "Azucar", none, "kg", 10, 2, 0⟩], [], [], [], [], 1⟩

/-- The sugar row of `dbAzucar`. -/
def ingAzucar : Ingrediente := ⟨1, "Azucar", none, "kg", 10, 2, 0⟩

/-- Store with one ingredient at stock 0 for the rounding counterexamples. -/
def dbAzucarCero : DB :=
  ⟨[⟨1, "Azucar", none, "kg", 0, 0, 0⟩], [], [], [], [], 1⟩

/-- An adjustment of 0.0005, finer than 3 decimals. -/
def ajusteMedioMili : Ajuste := ⟨1, 1/2000, "ENTRADA_COMPRA", "obs", 0, none⟩

/-- Concrete adjustment sequence for the ledger-invariant witness. -/
def ajustesScale3 : List Ajuste :=
  [⟨1, 11/2, "ENTRADA_COMPRA", "obs", 5, none⟩,
   ⟨1, -2, "SALIDA_VENTA", "obs2", 6, some 1⟩]

/-- A payload that only sets `stock_actual` to 5. -/
def updStock5 : IngredienteUpdate := ⟨none, none, none, some 5, none⟩

/-- The store `dbAzucar` after the scenario-A entry commits. -/
def dbAzucarTras : DB :=
  ⟨[⟨1, "Azucar", none, "kg", 31/2, 2, 0⟩], [], [], [],
    [⟨1, none, "ENTRADA_COMPRA", 11/2, 5, "Compra"⟩], 1⟩

/-- Store whose recipe rows are stored in the reverse of ingredient-name
order: carrot (id 1, name Zanahoria) before sugar (id 2, name Azucar). -/
def dbMix : DB :=
  ⟨[⟨1, "Zanahoria", none, "kg", 10, 0, 0⟩, ⟨2, "Azucar", none, "kg", 10, 0, 0⟩],
    [⟨7, "Mix", 5⟩], [⟨7, 1, 1, "kg"⟩, ⟨7, 2, 1, "kg"⟩], [], [], 1⟩

/-- The store `dbMix` after one successful unit sale of product 7. -/
def dbMixTras : DB :=
  ⟨[⟨1, "Zanahoria", none, "kg", 9, 0, 0⟩, ⟨2, "Azucar", none, "kg", 9, 0, 0⟩],
    [⟨7, "Mix", 5⟩], [⟨7, 1, 1, "kg"⟩, ⟨7, 2, 1, "kg"⟩],
    [⟨1, 7, 1, 5, 5, 0, "Venta de 1 x Mix"⟩],
    [⟨1, some 1, "SALIDA_VENTA", 1, 0, "Salida por Venta ID: 1 (1 x Mix)"⟩,
     ⟨2, some 1, "SALIDA_VENTA", 1, 0, "Salida por Venta ID: 1 (1 x Mix)"⟩],
    2⟩

/-- The empty store. -/
def dbVacia : DB := ⟨[], [], [], [], [], 1⟩
example :
    _actualizar_stock_ingrediente_db
      ⟨[⟨1, "Azucar", none, "kg", 10, 2, 0⟩], [], [], [], [], 1⟩
      1 (11/2) "ENTRADA_COMPRA" "obs" 5 none =
    .ok ⟨[⟨1, "Azucar", none, "kg", 31/2, 2, 0⟩], [], [],
      [], [⟨1, none, "ENTRADA_COMPRA", 11/2, 5, "obs"⟩], 1⟩ := by
  with_unfolding_all decide

example :
    _actualizar_stock_ingrediente_db
      ⟨[⟨3, "Leche", none, "L", 3/20, 0, 0⟩], [], [], [], [], 1⟩
      3 (-(1/5)) "SALIDA_VENTA" "obs" 5 (some 4) =
    .error (.stockInsuficiente 3 "Leche" (1/5) (3/20)) := by
  with_unfolding_all decide

/-- Equation: engine call on a missing ingredient id. -/
lemma actualizar_none {db : DB} {i : Nat} {d : ℚ} {k o : String} {n : Nat}
    {v : Option Nat} (hf : findIngrediente db i = none) :
    _actualizar_stock_ingrediente_db db i d k o n v =
      .error (.ingredienteNotFound i) := by
  unfold _actualizar_stock_ingrediente_db
  rw [hf]

/-- Equation: engine call that would drive the rounded stock negative. -/
lemma actualizar_some_neg {db : DB} {i : Nat} {d : ℚ} (k o : String)
    (n : Nat) (v : Option Nat) {ing : Ingrediente}
    (hf : findIngrediente db i = some ing)
    (hneg : quantize3 (ing.stock_actual + d) < 0) :
    _actualizar_stock_ingrediente_db db i d k o n v =
      .error (.stockInsuficiente i ing.nombre |d| ing.stock_actual) := by
  unfold _actualizar_stock_ingrediente_db
  rw [hf]
  exact if_pos hneg

/-- Equation: engine call whose rounded new stock is admissible commits
the stock write and appends exactly one movement. -/
lemma actualizar_some_nonneg {db : DB} {i : Nat} {d : ℚ} (k o : String)
    (n : Nat) (v : Option Nat) {ing : Ingrediente}
    (hf : findIngrediente db i = some ing)
    (hnn : 0 ≤ quantize3 (ing.stock_actual + d)) :
    _actualizar_stock_ingrediente_db db i d k o n v = .ok { db with
      ingredientes := db.ingredientes.map (fun j =>
        if j.id_ingrediente == i then
          { j with stock_actual := quantize3 (ing.stock_actual + d) }
        else j),
      movimientos := db.movimientos ++ [⟨i, v, k, |d|, n, o⟩] } := by
  unfold _actualizar_stock_ingrediente_db
  rw [hf]
  exact if_neg (not_lt.mpr hnn)

/-- Characterisation of a successful engine call: the ingredient row was
found, the rounded new stock was not negative, and the result is exactly
the stock write plus one appended movement. -/
lemma actualizar_ok_elim {db db' : DB} {i : Nat} {d : ℚ} {k o : String}
    {n : Nat} {v : Option Nat}
    (h : _actualizar_stock_ingrediente_db db i d k o n v = .ok db') :
    ∃ ing, findIngrediente db i = some ing ∧
      ¬ quantize3 (ing.stock_actual + d) < 0 ∧
      db' = { db with
        ingredientes := db.ingredientes.map (fun j =>
          if j.id_ingrediente == i then
            { j with stock_actual := quantize3 (ing.stock_actual + d) }
          else j),
        movimientos := db.movimientos ++ [⟨i, v, k, |d|, n, o⟩] } := by
  cases hf : findIngrediente db i with
  | none => rw [actualizar_none hf] at h; exact Except.noConfusion h
  | some ing =>
    by_cases hneg : quantize3 (ing.stock_actual + d) < 0
    · rw [actualizar_some_neg k o n v hf hneg] at h
      exact Except.noConfusion h
    · rw [actualizar_some_nonneg k o n v hf (not_lt.mp hneg)] at h
      exact ⟨ing, rfl, hneg, (Except.ok.inj h).symm⟩

/-- A failed engine call is one of the two `ValueError`s. -/
lemma actualizar_error_elim {db : DB} {i : Nat} {d : ℚ} {k o : String}
    {n : Nat} {v : Option Nat} {e : AjusteError}
    (h : _actualizar_stock_ingrediente_db db i d k o n v = .error e) :
    (findIngrediente db i = none ∧ e = .ingredienteNotFound i) ∨
    ∃ ing, findIngrediente db i = some ing ∧
      quantize3 (ing.stock_actual + d) < 0 ∧
      e = .stockInsuficiente i ing.nombre |d| ing.stock_actual := by
  cases hf : findIngrediente db i with
  | none =>
    rw [actualizar_none hf] at h
    exact .inl ⟨rfl, (Except.error.inj h).symm⟩
  | some ing =>
    by_cases hneg : quantize3 (ing.stock_actual + d) < 0
    · rw [actualizar_some_neg k o n v hf hneg] at h
      exact .inr ⟨ing, rfl, hneg, (Except.error.inj h).symm⟩
    · rw [actualizar_some_nonneg k o n v hf (not_lt.mp hneg)] at h
      exact Except.noConfusion h

/-- Lookup by id commutes with mapping an id-preserving function. -/
lemma find?_map_of_id_preserved (f : Ingrediente → Ingrediente)
    (hf : ∀ x, (f x).id_ingrediente = x.id_ingrediente) (i : Nat) :
    ∀ l : List Ingrediente,
      (l.map f).find? (fun j => j.id_ingrediente == i) =
        (l.find? (fun j => j.id_ingrediente == i)).map f
  | [] => rfl
  | x :: xs => by
    simp only [List.map_cons, List.find?_cons]
    rw [hf x]
    by_cases hx : x.id_ingrediente == i
    · simp [hx]
    · simp [hx, find?_map_of_id_preserved f hf i xs]

/-- Stock after a successful engine call: the adjusted ingredient holds the
rounded sum, every other ingredient is untouched. -/
lemma stockOf_actualizar_ok {db db' : DB} {i : Nat} {d : ℚ} {k o : String}
    {n : Nat} {v : Option Nat}
    (h : _actualizar_stock_ingrediente_db db i d k o n v = .ok db')
    (j : Nat) :
    stockOf db' j =
      if i = j then (stockOf db j).map (fun s => quantize3 (s + d))
      else stockOf db j := by
  obtain ⟨ing, hfind, -, rfl⟩ := actualizar_ok_elim h
  have hpres : ∀ x : Ingrediente,
      ((fun j => if j.id_ingrediente == i then
        { j with stock_actual := quantize3 (ing.stock_actual + d) }
        else j) x).id_ingrediente = x.id_ingrediente := by
    intro x; by_cases hx : x.id_ingrediente == i <;> simp [hx]
  unfold stockOf findIngrediente
  rw [find?_map_of_id_preserved _ hpres]
  by_cases hij : i = j
  · subst hij
    unfold findIngrediente at hfind
    rw [hfind, Option.map_some', Option.map_some', Option.map_some']
    have h1 := List.find?_some hfind
    simp only [beq_iff_eq] at h1
    simp [h1]
  · cases hfj : List.find? (fun j' => j'.id_ingrediente == j) db.ingredientes with
    | none => simp [hij]
    | some row =>
      have hrow := List.find?_some hfj
      simp only [beq_iff_eq] at hrow
      have hne : ¬ row.id_ingrediente = i := by
        rw [hrow]; exact fun hji => hij hji.symm
      simp [hij, hne]

/-- Rounding a non-negative value half-up stays non-negative. -/
lemma quantize3_nonneg {q : ℚ} (h : 0 ≤ q) : 0 ≤ quantize3 q := by
  unfold quantize3
  rw [if_pos h]
  apply div_nonneg _ (by norm_num)
  exact_mod_cast Int.floor_nonneg.mpr
    (add_nonneg (mul_nonneg h (by norm_num)) (by norm_num))

/-- The floor of one half. -/
lemma floor_one_half : ⌊(1 / 2 : ℚ)⌋ = 0 := by
  rw [Int.floor_eq_zero_iff]
  constructor <;> norm_num

/-- A value of scale ≤ 3 is a fixed point of the engine rounding. -/
lemma quantize3_eq_self {q : ℚ} (h : hasScale3 q = true) : quantize3 q = q := by
  have hden : (q * 1000).den = 1 := by
    simpa [hasScale3] using h
  have hq : ((q * 1000).num : ℚ) = q * 1000 :=
    Rat.coe_int_num_of_den_eq_one hden
  have hfloor : ⌊q * 1000 + 1 / 2⌋ = (q * 1000).num := by
    conv_lhs => rw [← hq]
    rw [Int.floor_int_add, floor_one_half, add_zero]
  have hfloorneg : ⌊-q * 1000 + 1 / 2⌋ = -(q * 1000).num := by
    have hneg : -q * 1000 = ((-(q * 1000).num : ℤ) : ℚ) := by
      push_cast
      rw [hq]; ring
    rw [hneg, Int.floor_int_add, floor_one_half, add_zero]
  unfold quantize3
  by_cases h0 : 0 ≤ q
  · rw [if_pos h0, hfloor, hq]
    field_simp
  · rw [if_neg h0, hfloorneg]
    push_cast
    rw [hq]
    field_simp

/-- Scale ≤ 3 is preserved by addition. -/
lemma hasScale3_add {a b : ℚ} (ha : hasScale3 a = true)
    (hb : hasScale3 b = true) : hasScale3 (a + b) = true := by
  have hda : (a * 1000).den = 1 := by simpa [hasScale3] using ha
  have hdb : (b * 1000).den = 1 := by simpa [hasScale3] using hb
  have hqa := Rat.coe_int_num_of_den_eq_one hda
  have hqb := Rat.coe_int_num_of_den_eq_one hdb
  have hsum : (a + b) * 1000 = (((a * 1000).num + (b * 1000).num : ℤ) : ℚ) := by
    push_cast
    rw [hqa, hqb]; ring
  unfold hasScale3
  rw [hsum, Rat.den_intCast]
  rfl

/-- A successful engine call appends exactly the expected movement row. -/
lemma actualizar_ok_movs {db db' : DB} {i : Nat} {d : ℚ} {k o : String}
    {n : Nat} {v : Option Nat}
    (h : _actualizar_stock_ingrediente_db db i d k o n v = .ok db') :
    db'.movimientos = db.movimientos ++ [⟨i, v, k, |d|, n, o⟩] := by
  obtain ⟨ing, -, -, rfl⟩ := actualizar_ok_elim h
  rfl

/-- A successful engine call only touches the ingredient and movement
tables. -/
lemma actualizar_ok_frame {db db' : DB} {i : Nat} {d : ℚ} {k o : String}
    {n : Nat} {v : Option Nat}
    (h : _actualizar_stock_ingrediente_db db i d k o n v = .ok db') :
    db'.productos = db.productos ∧ db'.receta = db.receta ∧
      db'.ventas = db.ventas ∧ db'.next_venta_id = db.next_venta_id := by
  obtain ⟨ing, -, -, rfl⟩ := actualizar_ok_elim h
  exact ⟨rfl, rfl, rfl, rfl⟩

/-- Stock predicate preservation through one successful engine call. -/
lemma forall_stock_after {db db' : DB} {i : Nat} {d : ℚ} {k o : String}
    {n : Nat} {v : Option Nat}
    (h : _actualizar_stock_ingrediente_db db i d k o n v = .ok db')
    (P : ℚ → Prop) (hP : ∀ j ∈ db.ingredientes, P j.stock_actual)
    (hnew : ∀ ing, findIngrediente db i = some ing →
      ¬ quantize3 (ing.stock_actual + d) < 0 →
      P (quantize3 (ing.stock_actual + d))) :
    ∀ j ∈ db'.ingredientes, P j.stock_actual := by
  obtain ⟨ing, hfind, hneg, rfl⟩ := actualizar_ok_elim h
  intro j hj
  simp only [List.mem_map] at hj
  obtain ⟨x, hx, rfl⟩ := hj
  by_cases hxi : x.id_ingrediente == i
  · rw [if_pos hxi]
    exact hnew ing hfind hneg
  · rw [if_neg hxi]
    exact hP x hx

/-- Reading `stockOf` through a found row. -/
lemma stockOf_of_find {db : DB} {i : Nat} {ing : Ingrediente}
    (hf : findIngrediente db i = some ing) :
    stockOf db i = some ing.stock_actual := by
  unfold stockOf
  rw [hf, Option.map_some']

/-- Equation for a committed adjustment at the transaction level. -/
lemma applyAjuste_ok {db db2 : DB} {a : Ajuste}
    (h : _actualizar_stock_ingrediente_db db a.id_ingrediente a.delta
      a.tipo_movimiento a.observacion a.fecha a.id_venta = .ok db2) :
    applyAjuste db a = db2 := by
  unfold applyAjuste
  rw [h]

/-- Equation for a rolled-back adjustment at the transaction level. -/
lemma applyAjuste_error {db : DB} {a : Ajuste} {e : AjusteError}
    (h : _actualizar_stock_ingrediente_db db a.id_ingrediente a.delta
      a.tipo_movimiento a.observacion a.fecha a.id_venta = .error e) :
    applyAjuste db a = db := by
  unfold applyAjuste
  rw [h]

/-- Head equation of `committed` when the first adjustment commits. -/
lemma committed_cons_ok {db db2 : DB} {a : Ajuste} (l : List Ajuste)
    (h : _actualizar_stock_ingrediente_db db a.id_ingrediente a.delta
      a.tipo_movimiento a.observacion a.fecha a.id_venta = .ok db2) :
    committed db (a :: l) = a :: committed db2 l := by
  simp only [committed]
  rw [h]

/-- Head equation of `committed` when the first adjustment fails. -/
lemma committed_cons_error {db : DB} {a : Ajuste} {e : AjusteError}
    (l : List Ajuste)
    (h : _actualizar_stock_ingrediente_db db a.id_ingrediente a.delta
      a.tipo_movimiento a.observacion a.fecha a.id_venta = .error e) :
    committed db (a :: l) = committed db l := by
  simp only [committed]
  rw [h]

/-- Head expansion of the per-ingredient delta sum. -/
lemma sumDeltasFor_cons (i : Nat) (a : Ajuste) (l : List Ajuste) :
    sumDeltasFor i (a :: l) =
      (if a.id_ingrediente == i then a.delta else 0) + sumDeltasFor i l := by
  unfold sumDeltasFor
  by_cases hcase : a.id_ingrediente == i
  · rw [if_pos hcase]
    simp [List.filter_cons, hcase]
  · rw [if_neg hcase, zero_add]
    simp [List.filter_cons, hcase]

/-- The movement log after a sequence of adjustments: the original log plus
one row per committed adjustment, in order, each with magnitude equal to
the absolute delta. -/
lemma applyAjustes_movs :
    ∀ (l : List Ajuste) (db : DB),
      (applyAjustes db l).movimientos =
        db.movimientos ++ (committed db l).map movOfAjuste
  | [], db => by simp [applyAjustes, committed]
  | a :: l, db => by
    rw [show applyAjustes db (a :: l) = applyAjustes (applyAjuste db a) l
      from rfl]
    cases hE : _actualizar_stock_ingrediente_db db a.id_ingrediente a.delta
        a.tipo_movimiento a.observacion a.fecha a.id_venta with
    | error e =>
      rw [applyAjuste_error hE, committed_cons_error l hE]
      exact applyAjustes_movs l db
    | ok db2 =>
      rw [applyAjuste_ok hE, committed_cons_ok l hE,
        applyAjustes_movs l db2, actualizar_ok_movs hE]
      simp [movOfAjuste]

/-- Non-negativity of every stock is preserved by any sequence of
adjustments: a committed write is guarded by the engine, a failed one rolls
back. -/
lemma applyAjustes_nonneg :
    ∀ (l : List Ajuste) (db : DB),
      (∀ j ∈ db.ingredientes, 0 ≤ j.stock_actual) →
      ∀ j ∈ (applyAjustes db l).ingredientes, 0 ≤ j.stock_actual
  | [], db, hdb => hdb
  | a :: l, db, hdb => by
    rw [show applyAjustes db (a :: l) = applyAjustes (applyAjuste db a) l
      from rfl]
    cases hE : _actualizar_stock_ingrediente_db db a.id_ingrediente a.delta
        a.tipo_movimiento a.observacion a.fecha a.id_venta with
    | error e =>
      rw [applyAjuste_error hE]
      exact applyAjustes_nonneg l db hdb
    | ok db2 =>
      rw [applyAjuste_ok hE]
      exact applyAjustes_nonneg l db2
        (forall_stock_after hE _ hdb (fun ing _ hneg => not_lt.mp hneg))

/-- Scale ≤ 3 of every stock is preserved when every delta has scale ≤ 3. -/
lemma applyAjustes_scale3 :
    ∀ (l : List Ajuste) (db : DB),
      (∀ j ∈ db.ingredientes, hasScale3 j.stock_actual = true) →
      (∀ a ∈ l, hasScale3 a.delta = true) →
      ∀ j ∈ (applyAjustes db l).ingredientes, hasScale3 j.stock_actual = true
  | [], db, hdb, _ => hdb
  | a :: l, db, hdb, hl => by
    rw [show applyAjustes db (a :: l) = applyAjustes (applyAjuste db a) l
      from rfl]
    cases hE : _actualizar_stock_ingrediente_db db a.id_ingrediente a.delta
        a.tipo_movimiento a.observacion a.fecha a.id_venta with
    | error e =>
      rw [applyAjuste_error hE]
      exact applyAjustes_scale3 l db hdb (fun x hx => hl x (List.mem_cons_of_mem a hx))
    | ok db2 =>
      rw [applyAjuste_ok hE]
      refine applyAjustes_scale3 l db2 ?_ (fun x hx => hl x (List.mem_cons_of_mem a hx))
      refine forall_stock_after hE (fun q => hasScale3 q = true) hdb
        (fun ing hfind _ => ?_)
      have hing : hasScale3 ing.stock_actual = true :=
        hdb ing (List.mem_of_find?_eq_some hfind)
      have hsum := hasScale3_add hing (hl a (List.mem_cons_self a l))
      rw [quantize3_eq_self hsum]
      exact hsum

/-- Ledger invariant at scale ≤ 3: after any sequence of adjustments whose
deltas all have at most 3 decimals (as does every initial stock), each
ingredient stock equals its initial stock plus the signed sum of the
deltas of the committed adjustments aimed at it. -/
lemma applyAjustes_stock_sum :
    ∀ (l : List Ajuste) (db : DB),
      (∀ j ∈ db.ingredientes, hasScale3 j.stock_actual = true) →
      (∀ a ∈ l, hasScale3 a.delta = true) →
      ∀ i, stockOf (applyAjustes db l) i =
        (stockOf db i).map (fun s => s + sumDeltasFor i (committed db l))
  | [], db, _, _, i => by
    simp only [applyAjustes, List.foldl_nil, committed, sumDeltasFor,
      List.filter_nil, List.map_nil, List.sum_nil]
    cases stockOf db i <;> simp
  | a :: l, db, hdb, hl, i => by
    rw [show applyAjustes db (a :: l) = applyAjustes (applyAjuste db a) l
      from rfl]
    cases hE : _actualizar_stock_ingrediente_db db a.id_ingrediente a.delta
        a.tipo_movimiento a.observacion a.fecha a.id_venta with
    | error e =>
      rw [applyAjuste_error hE, committed_cons_error l hE]
      exact applyAjustes_stock_sum l db hdb
        (fun x hx => hl x (List.mem_cons_of_mem a hx)) i
    | ok db2 =>
      rw [applyAjuste_ok hE, committed_cons_ok l hE, sumDeltasFor_cons]
      have hdb2 : ∀ j ∈ db2.ingredientes, hasScale3 j.stock_actual = true := by
        refine forall_stock_after hE (fun q => hasScale3 q = true) hdb
          (fun ing hfind _ => ?_)
        have hing := hdb ing (List.mem_of_find?_eq_some hfind)
        have hsum := hasScale3_add hing (hl a (List.mem_cons_self a l))
        rw [quantize3_eq_self hsum]
        exact hsum
      rw [applyAjustes_stock_sum l db2 hdb2
        (fun x hx => hl x (List.mem_cons_of_mem a hx)) i]
      have hstock2 := stockOf_actualizar_ok hE i
      obtain ⟨ing, hfind, -, -⟩ := actualizar_ok_elim hE
      by_cases hai : a.id_ingrediente = i
      · subst hai
        rw [if_pos rfl] at hstock2
        rw [hstock2, stockOf_of_find hfind, Option.map_some',
          Option.map_some', Option.map_some']
        have hq : quantize3 (ing.stock_actual + a.delta) =
            ing.stock_actual + a.delta :=
          quantize3_eq_self (hasScale3_add
            (hdb ing (List.mem_of_find?_eq_some hfind))
            (hl a (List.mem_cons_self a l)))
        rw [hq]
        simp [add_assoc]
      · have hbeq : ¬ (a.id_ingrediente == i) = true := by simpa using hai
        rw [if_neg hai] at hstock2
        rw [hstock2, if_neg hbeq, zero_add]

/-- A successful sale loop appends exactly one movement per recipe line, in
the order the lines arrive from the (unordered) recipe query. -/
lemma aplicarSalidas_ok_movs {u : Int} {vid : Nat} {nom : String} {now : Nat} :
    ∀ (lines : List RecetaLinea) (db db' : DB),
      aplicarSalidas u vid nom now db lines = .ok db' →
      db'.movimientos = db.movimientos ++ lines.map (movVenta u vid nom now)
  | [], db, db', h => by
    simp only [aplicarSalidas] at h
    rw [← Except.ok.inj h]
    simp
  | l :: rest, db, db', h => by
    simp only [aplicarSalidas] at h
    split at h
    · rename_i db2 hE
      rw [aplicarSalidas_ok_movs rest db2 db' h, actualizar_ok_movs hE]
      simp [movVenta]
    · exact Except.noConfusion h

/-- Equation: sale transaction on a missing product. -/
lemma salida_txn_none {db : DB} {p : Nat} {u : Int} {obs : Option String}
    {now : Nat}
    (hf : db.productos.find? (fun x => x.id_producto == p) = none) :
    salida_txn db p u obs now = .error (.productoNotFound p) := by
  unfold salida_txn
  rw [hf]

/-- Equation: sale transaction whose per-ingredient loop succeeds. -/
lemma salida_txn_some_ok {db db2 : DB} {p : Nat} {u : Int}
    {obs : Option String} {now : Nat} {prod : Producto}
    (hf : db.productos.find? (fun x => x.id_producto == p) = some prod)
    (hA : aplicarSalidas u db.next_venta_id prod.nombre now
      (dbConVenta db p u obs now prod) (ventaRecetaQuery db p) = .ok db2) :
    salida_txn db p u obs now = .ok (db2, db.next_venta_id) := by
  simp only [salida_txn, hf, hA]

/-- Equation: sale transaction whose per-ingredient loop fails. -/
lemma salida_txn_some_err {db : DB} {p : Nat} {u : Int}
    {obs : Option String} {now : Nat} {prod : Producto} {e : AjusteError}
    (hf : db.productos.find? (fun x => x.id_producto == p) = some prod)
    (hA : aplicarSalidas u db.next_venta_id prod.nombre now
      (dbConVenta db p u obs now prod) (ventaRecetaQuery db p) = .error e) :
    salida_txn db p u obs now = .error (.ajuste e) := by
  simp only [salida_txn, hf, hA]

/-- Characterisation of a successful sale transaction. -/
lemma salida_txn_ok_elim {db db2 : DB} {p : Nat} {u : Int}
    {obs : Option String} {now vid : Nat}
    (h : salida_txn db p u obs now = .ok (db2, vid)) :
    ∃ prod, db.productos.find? (fun x => x.id_producto == p) = some prod ∧
      vid = db.next_venta_id ∧
      aplicarSalidas u db.next_venta_id prod.nombre now
        (dbConVenta db p u obs now prod) (ventaRecetaQuery db p) = .ok db2 := by
  cases hf : db.productos.find? (fun x => x.id_producto == p) with
  | none =>
    rw [salida_txn_none hf] at h
    exact Except.noConfusion h
  | some prod =>
    cases hA : aplicarSalidas u db.next_venta_id prod.nombre now
        (dbConVenta db p u obs now prod) (ventaRecetaQuery db p) with
    | ok dbx =>
      rw [salida_txn_some_ok hf hA] at h
      obtain ⟨h1, h2⟩ := Prod.mk.inj (Except.ok.inj h)
      exact ⟨prod, rfl, h2.symm, h1 ▸ hA⟩
    | error e =>
      rw [salida_txn_some_err hf hA] at h
      exact Except.noConfusion h

/-- C1: if any per-ingredient stock adjustment of a sale fails, the whole
request leaves the committed store unchanged — no Sale row, no Movement
rows, no stock change for any ingredient (including ones adjusted before
the failing line, whose uncommitted writes are rolled back) — and the
specific engine failure is returned to the caller. -/
theorem venta_atomic_rollback (db : DB) (p : Nat) (u : Int)
    (obs : Option String) (now : Nat) (e : AjusteError)
    (hu : 0 < u)
    (htxn : salida_txn db p u obs now = .error (.ajuste e)) :
    registrar_salida_por_venta db p u obs now =
      ⟨400, db, none, some (.ajuste e)⟩ := by
  unfold registrar_salida_por_venta
  rw [if_neg (not_le.mpr hu), htxn]

/-- Witness for `venta_atomic_rollback`: selling one Latte against 0.150 L
of milk fails with the 0.200-vs-0.150 insufficiency and changes nothing. -/
theorem venta_atomic_rollback_witness :
    (0 : Int) < 1 ∧
    salida_txn dbLatte 1 1 none 7 =
      .error (.ajuste (.stockInsuficiente 3 "Leche" (1/5) (3/20))) ∧
    registrar_salida_por_venta dbLatte 1 1 none 7 =
      ⟨400, dbLatte, none,
        some (.ajuste (.stockInsuficiente 3 "Leche" (1/5) (3/20)))⟩ :=
  ⟨by norm_num, by with_unfolding_all decide,
    venta_atomic_rollback dbLatte 1 1 none 7
      (.stockInsuficiente 3 "Leche" (1/5) (3/20))
      (by norm_num) (by with_unfolding_all decide)⟩

/-- Counterexample to C2 as stated: a committed adjustment of 0.0005 on
stock 0 is rounded half-up into a stored stock of 0.001, while the signed
sum of the recorded movement magnitudes is 0.0005 — the ledger equation
fails. -/
theorem stock_ledger_cex :
    committed dbAzucarCero [ajusteMedioMili] = [ajusteMedioMili] ∧
    stockOf (applyAjustes dbAzucarCero [ajusteMedioMili]) 1 = some (1/1000) ∧
    (applyAjustes dbAzucarCero [ajusteMedioMili]).movimientos =
      [⟨1, none, "ENTRADA_COMPRA", 1/2000, 0, "obs"⟩] ∧
    ¬ stockOf (applyAjustes dbAzucarCero [ajusteMedioMili]) 1 =
        (stockOf dbAzucarCero 1).map
          (fun s => s + sumDeltasFor 1 (committed dbAzucarCero [ajusteMedioMili])) := by
  with_unfolding_all decide

/-- C2 (amended): when every adjustment delta has at most 3 fractional
digits — as has every stock the validation layer admits — the stock of
each ingredient after any sequence of committed adjustments equals its
initial stock plus the signed sum of the committed deltas aimed at it,
each committed adjustment is recorded as one Movement whose magnitude is
the absolute delta, and no stock is ever negative after any committed
adjustment.  (Without the 3-decimal restriction the engine half-up
rounding breaks the sum equation, see the counterexample.) -/
theorem stock_ledger_invariant (db : DB) (l : List Ajuste)
    (hdb3 : ∀ j ∈ db.ingredientes, hasScale3 j.stock_actual = true)
    (hl3 : ∀ a ∈ l, hasScale3 a.delta = true)
    (hnn : ∀ j ∈ db.ingredientes, 0 ≤ j.stock_actual) :
    (∀ i, stockOf (applyAjustes db l) i =
      (stockOf db i).map (fun s => s + sumDeltasFor i (committed db l))) ∧
    (applyAjustes db l).movimientos =
      db.movimientos ++ (committed db l).map movOfAjuste ∧
    ∀ j ∈ (applyAjustes db l).ingredientes, 0 ≤ j.stock_actual :=
  ⟨applyAjustes_stock_sum l db hdb3 hl3, applyAjustes_movs l db,
    applyAjustes_nonneg l db hnn⟩

/-- Witness for `stock_ledger_invariant` on a two-step sequence. -/
theorem stock_ledger_invariant_witness :
    (∀ j ∈ dbAzucar.ingredientes, hasScale3 j.stock_actual = true) ∧
    (∀ a ∈ ajustesScale3, hasScale3 a.delta = true) ∧
    (∀ j ∈ dbAzucar.ingredientes, 0 ≤ j.stock_actual) ∧
    ((∀ i, stockOf (applyAjustes dbAzucar ajustesScale3) i =
      (stockOf dbAzucar i).map
        (fun s => s + sumDeltasFor i (committed dbAzucar ajustesScale3))) ∧
    (applyAjustes dbAzucar ajustesScale3).movimientos =
      dbAzucar.movimientos ++ (committed dbAzucar ajustesScale3).map movOfAjuste ∧
    ∀ j ∈ (applyAjustes dbAzucar ajustesScale3).ingredientes,
      0 ≤ j.stock_actual) :=
  ⟨by with_unfolding_all decide, by with_unfolding_all decide,
    by with_unfolding_all decide,
    stock_ledger_invariant dbAzucar ajustesScale3
      (by with_unfolding_all decide) (by with_unfolding_all decide)
      (by with_unfolding_all decide)⟩

/-- C3: an adjustment on an existing ingredient whose rounded new stock is
not negative sets that ingredient stock to `(current_stock + delta)`
rounded half-up to 3 decimals and appends exactly one Movement carrying
the given kind, the absolute delta as magnitude, the given sale reference,
the timestamp and the note — nothing else in the store changes. -/
theorem adjust_commits_rounded_stock_and_movement
    (db : DB) (i : Nat) (d : ℚ) (k o : String) (n : Nat) (v : Option Nat)
    (ing : Ingrediente) (hf : findIngrediente db i = some ing)
    (hnn : 0 ≤ quantize3 (ing.stock_actual + d)) :
    _actualizar_stock_ingrediente_db db i d k o n v = .ok { db with
      ingredientes := db.ingredientes.map (fun j =>
        if j.id_ingrediente == i then
          { j with stock_actual := quantize3 (ing.stock_actual + d) }
        else j),
      movimientos := db.movimientos ++ [⟨i, v, k, |d|, n, o⟩] } :=
  actualizar_some_nonneg k o n v hf hnn

/-- Witness for `adjust_commits_rounded_stock_and_movement`: scenario A,
stock 10 adjusted by +5.5 with kind ENTRADA_COMPRA. -/
theorem adjust_commits_rounded_stock_and_movement_witness :
    findIngrediente dbAzucar 1 = some ingAzucar ∧
    0 ≤ quantize3 (ingAzucar.stock_actual + 11/2) ∧
    _actualizar_stock_ingrediente_db dbAzucar 1 (11/2) "ENTRADA_COMPRA"
        "Compra" 5 none = .ok { dbAzucar with
      ingredientes := dbAzucar.ingredientes.map (fun j =>
        if j.id_ingrediente == 1 then
          { j with stock_actual := quantize3 (ingAzucar.stock_actual + 11/2) }
        else j),
      movimientos := dbAzucar.movimientos ++
        [⟨1, none, "ENTRADA_COMPRA", |(11 : ℚ)/2|, 5, "Compra"⟩] } :=
  ⟨by with_unfolding_all decide, by with_unfolding_all decide,
    adjust_commits_rounded_stock_and_movement dbAzucar 1 (11/2)
      "ENTRADA_COMPRA" "Compra" 5 none ingAzucar
      (by with_unfolding_all decide) (by with_unfolding_all decide)⟩

/-- C4: an adjustment whose rounded new stock would be negative fails with
the insufficient-stock error carrying the ingredient id, its name, the
requested magnitude (absolute delta) and the available stock, and commits
nothing: at the transaction boundary the store is exactly as before. -/
theorem adjust_insufficient_stock_aborts
    (db : DB) (i : Nat) (d : ℚ) (k o : String) (n : Nat) (v : Option Nat)
    (ing : Ingrediente) (hf : findIngrediente db i = some ing)
    (hneg : quantize3 (ing.stock_actual + d) < 0) :
    _actualizar_stock_ingrediente_db db i d k o n v =
      .error (.stockInsuficiente i ing.nombre |d| ing.stock_actual) ∧
    applyAjuste db ⟨i, d, k, o, n, v⟩ = db :=
  ⟨actualizar_some_neg k o n v hf hneg,
    applyAjuste_error (actualizar_some_neg k o n v hf hneg)⟩

/-- Witness for `adjust_insufficient_stock_aborts`: draining 0.200 L from
0.150 L of milk. -/
theorem adjust_insufficient_stock_aborts_witness :
    findIngrediente dbLatte 3 = some ingLeche ∧
    quantize3 (ingLeche.stock_actual + -(1/5)) < 0 ∧
    (_actualizar_stock_ingrediente_db dbLatte 3 (-(1/5)) "SALIDA_VENTA"
        "obs" 7 (some 4) =
      .error (.stockInsuficiente 3 ingLeche.nombre |(-(1/5) : ℚ)|
        ingLeche.stock_actual) ∧
    applyAjuste dbLatte ⟨3, -(1/5), "SALIDA_VENTA", "obs", 7, some 4⟩ =
      dbLatte) :=
  ⟨by with_unfolding_all decide, by with_unfolding_all decide,
    adjust_insufficient_stock_aborts dbLatte 3 (-(1/5)) "SALIDA_VENTA"
      "obs" 7 (some 4) ingLeche
      (by with_unfolding_all decide) (by with_unfolding_all decide)⟩

/-- The ingredient-update endpoint never writes the movement log, on any
branch. -/
lemma update_ingrediente_movs (db : DB) (i : Nat) (p : IngredienteUpdate)
    (now : Nat) :
    (update_ingrediente db i p now).db.movimientos = db.movimientos := by
  unfold update_ingrediente
  split
  · rfl
  · split
    · rfl
    · split
      · rfl
      · rfl

/-- Counterexample to C5 as stated: `PUT /api/ingredientes/1` with
`stock_actual = 5` commits a stock change (10 becomes 5) by direct field
assignment and appends no Movement — the movement-log invariant is not
preserved by the ingredient-update write path. -/
theorem update_bypasses_engine_cex :
    (update_ingrediente dbAzucar 1 updStock5 9).status = 200 ∧
    stockOf (update_ingrediente dbAzucar 1 updStock5 9).db 1 = some 5 ∧
    ¬ stockOf (update_ingrediente dbAzucar 1 updStock5 9).db 1 =
        stockOf dbAzucar 1 ∧
    (update_ingrediente dbAzucar 1 updStock5 9).db.movimientos =
      dbAzucar.movimientos := by
  with_unfolding_all decide

/-- C5 (amended): the inventory-entry and sale paths mutate stock only
through the Stock Adjustment Engine, and every committed engine call
appends exactly one Movement in the same transaction; the ingredient
update endpoint, however, writes `stock_actual` directly and never appends
a Movement, so the movement-log invariant holds on the engine paths but
not on the ingredient-update path. -/
theorem stock_write_paths :
    (∀ (db db' : DB) (i : Nat) (d : ℚ) (k o : String) (n : Nat)
      (v : Option Nat),
      _actualizar_stock_ingrediente_db db i d k o n v = .ok db' →
      db'.movimientos = db.movimientos ++ [⟨i, v, k, |d|, n, o⟩]) ∧
    ∀ (db : DB) (i : Nat) (p : IngredienteUpdate) (now : Nat),
      (update_ingrediente db i p now).db.movimientos = db.movimientos :=
  ⟨fun _ _ _ _ _ _ _ _ h => actualizar_ok_movs h,
    update_ingrediente_movs⟩

/-- Witness for `stock_write_paths`: a committed engine call appends its
movement; the update endpoint leaves the (empty) log empty. -/
theorem stock_write_paths_witness :
    _actualizar_stock_ingrediente_db dbAzucar 1 (11/2) "ENTRADA_COMPRA"
      "Compra" 5 none = .ok dbAzucarTras ∧
    dbAzucarTras.movimientos = dbAzucar.movimientos ++
      [⟨1, none, "ENTRADA_COMPRA", |(11 : ℚ)/2|, 5, "Compra"⟩] ∧
    (update_ingrediente dbAzucar 1 updStock5 9).db.movimientos =
      dbAzucar.movimientos :=
  ⟨by with_unfolding_all decide,
    stock_write_paths.1 dbAzucar dbAzucarTras 1 (11/2) "ENTRADA_COMPRA"
      "Compra" 5 none (by with_unfolding_all decide),
    stock_write_paths.2 dbAzucar 1 updStock5 9⟩

/-- A successful sale response comes from a successful transaction body. -/
lemma registrar_salida_ok_elim {db db2 : DB} {p : Nat} {u : Int}
    {obs : Option String} {now vid : Nat}
    (h : registrar_salida_por_venta db p u obs now =
      ⟨200, db2, some vid, none⟩) :
    salida_txn db p u obs now = .ok (db2, vid) := by
  unfold registrar_salida_por_venta at h
  by_cases hu : u ≤ 0
  · rw [if_pos hu] at h
    have hs : (400 : Nat) = 200 := congrArg SalidaResult.status h
    exact absurd hs (by decide)
  · rw [if_neg hu] at h
    cases hT : salida_txn db p u obs now with
    | error e =>
      rw [hT] at h
      have hs : (400 : Nat) = 200 := congrArg SalidaResult.status h
      exact absurd hs (by decide)
    | ok pr =>
      obtain ⟨dbF, vidF⟩ := pr
      rw [hT] at h
      have h' : (⟨200, dbF, some vidF, none⟩ : SalidaResult) =
          ⟨200, db2, some vid, none⟩ := h
      have h2 : dbF = db2 := congrArg SalidaResult.db h'
      have h3 : some vidF = some vid := congrArg SalidaResult.id_venta h'
      rw [← h2, ← Option.some.inj h3]

/-- Counterexample to C6 as stated: the product read path resolves the
recipe ordered by ingredient name (sugar before carrot: ids `[2, 1]`), but
the sale endpoint processes the recipe rows — and therefore adjusts and
locks the ingredient rows — in stored table order (`[1, 2]`), not in name
order. -/
theorem sale_lock_order_cex :
    (recipe_for dbMix 7).map (·.id_ingrediente) = [2, 1] ∧
    (registrar_salida_por_venta dbMix 7 1 none 0).status = 200 ∧
    (registrar_salida_por_venta dbMix 7 1 none 0).db.movimientos.map
      (·.id_ingrediente_fk) = [1, 2] ∧
    ¬ (registrar_salida_por_venta dbMix 7 1 none 0).db.movimientos.map
        (·.id_ingrediente_fk) = (recipe_for dbMix 7).map (·.id_ingrediente) := by
  with_unfolding_all decide

/-- C6 (amended): resolving a product recipe through the product read
path returns the lines ordered by ingredient name (deterministically), but
the Sale Orchestrator reads the recipe with a query that has no ORDER BY
and processes the lines — appending one movement per line, hence acquiring
ingredient row locks — in stored table order, which need not coincide with
name order. -/
theorem recipe_order_vs_sale_order
    (db db2 : DB) (p : Nat) (u : Int) (obs : Option String) (now vid : Nat)
    (h : registrar_salida_por_venta db p u obs now =
      ⟨200, db2, some vid, none⟩) :
    List.Sorted
      (fun a b : RecetaResuelta => a.nombre_ingrediente ≤ b.nombre_ingrediente)
      (recipe_for db p) ∧
    db2.movimientos.map (·.id_ingrediente_fk) =
      db.movimientos.map (·.id_ingrediente_fk) ++
        (ventaRecetaQuery db p).map (·.id_ingrediente_fk) := by
  refine ⟨List.sorted_insertionSort _ _, ?_⟩
  obtain ⟨prod, hf, hvid, hA⟩ := salida_txn_ok_elim (registrar_salida_ok_elim h)
  rw [aplicarSalidas_ok_movs _ _ _ hA,
    show (dbConVenta db p u obs now prod).movimientos = db.movimientos
      from rfl,
    List.map_append, List.map_map]
  rfl

/-- Witness for `recipe_order_vs_sale_order` on the concrete mixed store. -/
theorem recipe_order_vs_sale_order_witness :
    registrar_salida_por_venta dbMix 7 1 none 0 =
      ⟨200, dbMixTras, some 1, none⟩ ∧
    (List.Sorted
      (fun a b : RecetaResuelta => a.nombre_ingrediente ≤ b.nombre_ingrediente)
      (recipe_for dbMix 7) ∧
    dbMixTras.movimientos.map (·.id_ingrediente_fk) =
      dbMix.movimientos.map (·.id_ingrediente_fk) ++
        (ventaRecetaQuery dbMix 7).map (·.id_ingrediente_fk)) :=
  ⟨by with_unfolding_all decide,
    recipe_order_vs_sale_order dbMix dbMixTras 7 1 none 0 1
      (by with_unfolding_all decide)⟩

/-- Equation: inventory entry whose engine call succeeds answers 200 with
the committed store. -/
lemma entrada_ok_char {db db2 : DB} {i : Nat} {c : ℚ} {t o : Option String}
    {now : Nat} (hc : 0 < c)
    (hE : _actualizar_stock_ingrediente_db db i c
      ((t.getD "ENTRADA_COMPRA").trim.toUpper)
      (o.getD ("Entrada de " ++ toString c ++ " unidades.")) now none =
      .ok db2) :
    registrar_entrada_inventario db i c t o now = ⟨200, db2, none⟩ := by
  simp only [registrar_entrada_inventario, if_neg (not_le.mpr hc), hE]

/-- Equation: inventory entry whose engine call raises answers 400 with
the error detail and the untouched store. -/
lemma entrada_err_char {db : DB} {i : Nat} {c : ℚ} {t o : Option String}
    {now : Nat} {e : AjusteError} (hc : 0 < c)
    (hE : _actualizar_stock_ingrediente_db db i c
      ((t.getD "ENTRADA_COMPRA").trim.toUpper)
      (o.getD ("Entrada de " ++ toString c ++ " unidades.")) now none =
      .error e) :
    registrar_entrada_inventario db i c t o now = ⟨400, db, some e⟩ := by
  simp only [registrar_entrada_inventario, if_neg (not_le.mpr hc), hE]

/-- Counterexample to C7 as stated: a quantity of 0.0005 — finer than 3
decimals — posted to the inventory entry endpoint is accepted with 200 and
silently rounded half-up into the stored stock (0 becomes 0.001); no
precision check rejects it. -/
theorem entrada_precision_cex :
    hasScale3 (1/2000 : ℚ) = false ∧
    (registrar_entrada_inventario dbAzucarCero 1 (1/2000) none (some "o") 0).status
      = 200 ∧
    stockOf
      (registrar_entrada_inventario dbAzucarCero 1 (1/2000) none (some "o") 0).db
      1 = some (1/1000) := by
  with_unfolding_all decide

/-- C7 (amended): a strictly positive adjustment quantity with more than 3
fractional digits submitted to the inventory entry endpoint for an
existing ingredient with non-negative stock is accepted (HTTP 200) and the
stored stock becomes the half-up 3-decimal rounding of `stock + quantity`
— it is silently rounded, not rejected. -/
theorem entrada_fine_delta_accepted_and_rounded
    (db : DB) (i : Nat) (c : ℚ) (t o : Option String) (now : Nat)
    (ing : Ingrediente) (hc : 0 < c) (hs : hasScale3 c = false)
    (hf : findIngrediente db i = some ing) (hnn : 0 ≤ ing.stock_actual) :
    (registrar_entrada_inventario db i c t o now).status = 200 ∧
    stockOf (registrar_entrada_inventario db i c t o now).db i =
      some (quantize3 (ing.stock_actual + c)) := by
  have hq : 0 ≤ quantize3 (ing.stock_actual + c) :=
    quantize3_nonneg (add_nonneg hnn hc.le)
  have hE := actualizar_some_nonneg
    ((t.getD "ENTRADA_COMPRA").trim.toUpper)
    (o.getD ("Entrada de " ++ toString c ++ " unidades.")) now none hf hq
  rw [entrada_ok_char hc hE]
  refine ⟨rfl, ?_⟩
  have hst := stockOf_actualizar_ok hE i
  rw [if_pos rfl, stockOf_of_find hf, Option.map_some'] at hst
  exact hst

/-- Witness for `entrada_fine_delta_accepted_and_rounded` at quantity
0.0005 on stock 0. -/
theorem entrada_fine_delta_accepted_and_rounded_witness :
    (0 : ℚ) < 1/2000 ∧ hasScale3 (1/2000 : ℚ) = false ∧
    findIngrediente dbAzucarCero 1 = some ⟨1, "Azucar", none, "kg", 0, 0, 0⟩ ∧
    (0 : ℚ) ≤ (⟨1, "Azucar", none, "kg", 0, 0, 0⟩ : Ingrediente).stock_actual ∧
    ((registrar_entrada_inventario dbAzucarCero 1 (1/2000) none (some "w") 3).status
      = 200 ∧
    stockOf
      (registrar_entrada_inventario dbAzucarCero 1 (1/2000) none (some "w") 3).db
      1 = some (quantize3
        ((⟨1, "Azucar", none, "kg", 0, 0, 0⟩ : Ingrediente).stock_actual + 1/2000))) :=
  ⟨by with_unfolding_all decide, by with_unfolding_all decide,
    by with_unfolding_all decide, by with_unfolding_all decide,
    entrada_fine_delta_accepted_and_rounded dbAzucarCero 1 (1/2000) none
      (some "w") 3 ⟨1, "Azucar", none, "kg", 0, 0, 0⟩
      (by with_unfolding_all decide) (by with_unfolding_all decide)
      (by with_unfolding_all decide) (by with_unfolding_all decide)⟩

/-- Counterexample to C8 as stated: posting an entry for an ingredient id
with no row answers HTTP 400 (the not-found `ValueError` falls into the
generic 400 handler), not 404. -/
theorem entrada_not_found_status_cex :
    (registrar_entrada_inventario dbVacia 7 1 none (some "o") 0).status = 400 ∧
    ¬ (registrar_entrada_inventario dbVacia 7 1 none (some "o") 0).status = 404 ∧
    (registrar_entrada_inventario dbVacia 7 1 none (some "o") 0).error =
      some (.ingredienteNotFound 7) := by
  with_unfolding_all decide

/-- C8 (amended): for every POST to the inventory entry endpoint with a
positive quantity naming an ingredient id with no row, the response is
HTTP 400 carrying the ingredient-not-found detail and the store is
unchanged; the endpoint has no 404 branch for this case. -/
theorem entrada_missing_ingredient_400
    (db : DB) (i : Nat) (c : ℚ) (t o : Option String) (now : Nat)
    (hc : 0 < c) (hf : findIngrediente db i = none) :
    registrar_entrada_inventario db i c t o now =
      ⟨400, db, some (.ingredienteNotFound i)⟩ :=
  entrada_err_char hc (actualizar_none hf)

/-- Witness for `entrada_missing_ingredient_400` on the empty store. -/
theorem entrada_missing_ingredient_400_witness :
    (0 : ℚ) < 2 ∧ findIngrediente dbVacia 9 = none ∧
    registrar_entrada_inventario dbVacia 9 2 none none 4 =
      ⟨400, dbVacia, some (.ingredienteNotFound 9)⟩ :=
  ⟨by with_unfolding_all decide, by with_unfolding_all decide,
    entrada_missing_ingredient_400 dbVacia 9 2 none none 4
      (by with_unfolding_all decide) (by with_unfolding_all decide)⟩

/-- C9: an inventory entry with a strictly positive quantity on an
existing ingredient whose stock is non-negative can never hit the
insufficient-stock branch: the request succeeds with 200 and surfaces no
engine error. -/
theorem entrada_positive_never_insufficient
    (db : DB) (i : Nat) (c : ℚ) (t o : Option String) (now : Nat)
    (ing : Ingrediente) (hc : 0 < c)
    (hf : findIngrediente db i = some ing) (hnn : 0 ≤ ing.stock_actual) :
    (registrar_entrada_inventario db i c t o now).status = 200 ∧
    (registrar_entrada_inventario db i c t o now).error = none := by
  have hq : 0 ≤ quantize3 (ing.stock_actual + c) :=
    quantize3_nonneg (add_nonneg hnn hc.le)
  have hE := actualizar_some_nonneg
    ((t.getD "ENTRADA_COMPRA").trim.toUpper)
    (o.getD ("Entrada de " ++ toString c ++ " unidades.")) now none hf hq
  rw [entrada_ok_char hc hE]
  exact ⟨rfl, rfl⟩

/-- Witness for `entrada_positive_never_insufficient` on the sugar store. -/
theorem entrada_positive_never_insufficient_witness :
    (0 : ℚ) < 3 ∧ findIngrediente dbAzucar 1 = some ingAzucar ∧
    (0 : ℚ) ≤ ingAzucar.stock_actual ∧
    ((registrar_entrada_inventario dbAzucar 1 3 none (some "w") 8).status = 200 ∧
    (registrar_entrada_inventario dbAzucar 1 3 none (some "w") 8).error = none) :=
  ⟨by with_unfolding_all decide, by with_unfolding_all decide,
    by with_unfolding_all decide,
    entrada_positive_never_insufficient dbAzucar 1 3 none (some "w") 8
      ingAzucar (by with_unfolding_all decide)
      (by with_unfolding_all decide) (by with_unfolding_all decide)⟩

/-- C10: on every successful inventory entry exactly one Movement is
appended; its kind is `"ENTRADA_COMPRA"` when the request omits the
movement kind and otherwise the supplied kind normalised by stripping
surrounding whitespace and upper-casing. -/
theorem entrada_kind_default_and_normalisation
    (db : DB) (i : Nat) (c : ℚ) (t o : Option String) (now : Nat)
    (h : (registrar_entrada_inventario db i c t o now).status = 200) :
    ∃ m, (registrar_entrada_inventario db i c t o now).db.movimientos =
        db.movimientos ++ [m] ∧
      (t = none → m.tipo_movimiento = "ENTRADA_COMPRA") ∧
      ∀ s, t = some s → m.tipo_movimiento = s.trim.toUpper := by
  by_cases hc : c ≤ 0
  · unfold registrar_entrada_inventario at h
    rw [if_pos hc] at h
    have hs : (400 : Nat) = 200 := h
    exact absurd hs (by decide)
  · have hc' : 0 < c := not_le.mp hc
    cases hE : _actualizar_stock_ingrediente_db db i c
        ((t.getD "ENTRADA_COMPRA").trim.toUpper)
        (o.getD ("Entrada de " ++ toString c ++ " unidades.")) now none with
    | error e =>
      rw [entrada_err_char hc' hE] at h
      have hs : (400 : Nat) = 200 := h
      exact absurd hs (by decide)
    | ok db2 =>
      rw [entrada_ok_char hc' hE]
      refine ⟨⟨i, none, (t.getD "ENTRADA_COMPRA").trim.toUpper, |c|, now,
        o.getD ("Entrada de " ++ toString c ++ " unidades.")⟩,
        actualizar_ok_movs hE, ?_, ?_⟩
      · intro ht
        subst ht
        have hnorm : "ENTRADA_COMPRA".trim.toUpper = "ENTRADA_COMPRA" := by
          with_unfolding_all decide
        exact hnorm
      · intro s hs
        subst hs
        rfl

/-- Witness for `entrada_kind_default_and_normalisation` with a supplied
kind that needs stripping and upper-casing. -/
theorem entrada_kind_default_and_normalisation_witness :
    (registrar_entrada_inventario dbAzucar 1 2 (some " venta_extra ")
      (some "w") 6).status = 200 ∧
    ∃ m, (registrar_entrada_inventario dbAzucar 1 2 (some " venta_extra ")
        (some "w") 6).db.movimientos = dbAzucar.movimientos ++ [m] ∧
      ((some " venta_extra " = (none : Option String) →
        m.tipo_movimiento = "ENTRADA_COMPRA") ∧
      ∀ s, some " venta_extra " = some s →
        m.tipo_movimiento = s.trim.toUpper) :=
  ⟨by with_unfolding_all decide,
    entrada_kind_default_and_normalisation dbAzucar 1 2 (some " venta_extra ")
      (some "w") 6 (by with_unfolding_all decide)⟩
